import Mathlib

set_option maxRecDepth 4000

/-!
Verification development for the rolling-deployment orchestrator of the
`gofordevopsclass` repository.  The definitions below are shallow embeddings of
the Go source under `automation_the_hard_way/`: the per-endpoint Action state
machine (`workflow/actions/actions.go`), the configuration validation
(`orchestration/config/config.go`), and the Workflow controller
(`workflow/workflow/workflow.go`).  External collaborators (the load balancer,
the SSH channel, the remote health endpoint, the local file system) are
modelled as outcome-describing environments supplied to the embedded code.
-/

namespace GoModel

/-- Errors produced by the embedded code.  Constructors mirror the error values
built with `fmt.Errorf` and `errors.New` in the source; `wrap` mirrors wrapping
with the `%w` verb, `exitError` mirrors an `ssh.ExitError` carrying an exit
status. -/
inductive GoError where
  | openErr
  | dialErr
  | rmErr
  | cpErr
  | startErr
  | reachTimeout
  | addErr
  | killErr
  | kill9Err
  | deathTimeout
  | exitError (code : Int)
  | wrap (m : String) (e : GoError)
  | msg (s : String)
  | fuelOut
deriving DecidableEq, Repr

/-- ASCII white-space test, modelling the characters `unicode.IsSpace` reports
in the ASCII range (the range this repository uses). -/
def isSpaceChar (c : Char) : Bool :=
  c = ' ' || c = '\t' || c = '\n' || c = '\r'

/-- Character-level split.  Models Go `strings.Split` with a one-character
separator: an empty input yields one empty field, and a trailing separator
yields a trailing empty field, as in Go. -/
def splitOnChar (sep : Char) : List Char → List (List Char)
  | [] => [[]]
  | c :: rest =>
    let r := splitOnChar sep rest
    if c = sep then [] :: r
    else
      match r with
      | [] => [[c]]
      | g :: gs => (c :: g) :: gs

/-- Go `strings.Split` with a one-character separator, on `String`. -/
def goSplit (sep : Char) (s : String) : List String :=
  (splitOnChar sep s.data).map String.mk

/-- Go `strings.TrimSpace` restricted to ASCII white space. -/
def trimString (s : String) : String :=
  String.mk (((s.data.dropWhile isSpaceChar).reverse.dropWhile isSpaceChar).reverse)

/-- True when the character list is a nonempty run of decimal digits. -/
def decDigits (l : List Char) : Bool :=
  !l.isEmpty && l.all (fun c => c.isDigit)

/-- Numeric value of a run of decimal digits. -/
def digitsVal (l : List Char) : Nat :=
  l.foldl (fun a c => a * 10 + (c.toNat - 48)) 0

/-- Models Go `strconv.Atoi` with a discarded error, which is how
`CheckIPPort` calls it: the parsed value on success and 0 on any parse
failure. -/
def atoiOrZero (s : String) : Int :=
  match s.data with
  | '-' :: rest => if decDigits rest then -(digitsVal rest : Int) else 0
  | '+' :: rest => if decDigits rest then (digitsVal rest : Int) else 0
  | l => if decDigits l then (digitsVal l : Int) else 0

namespace actions

/-- The stages of the Action state machine of `workflow/actions/actions.go`,
in the strict forward order of the source: `rmBackend` (RemoveFromPool),
`jobKill` (KillExisting), `cp` (CopyBinary), `jobStart` (StartBinary),
`reachable` (WaitHealthy), `addBackend` (AddToPool). -/
inductive Stage where
  | rmBackend
  | jobKill
  | cp
  | jobStart
  | reachable
  | addBackend
deriving DecidableEq, Repr

/-- Result of the `pidof` lookup run over SSH by `Actions.findPIDs`: either the
command succeeded with some output, or it failed with an `ssh.ExitError`
carrying the given exit status.  (The source type-asserts the error to
`*ssh.ExitError`, so exit errors are the error shape the code handles.) -/
inductive LookupResult where
  | ok (out : String)
  | exitErr (code : Int)
deriving DecidableEq, Repr

/-- Embeds `Actions.findPIDs` (actions.go lines 218-234): run `pidof name`; on
success split the trimmed output on single spaces; on a command error whose
exit status is 127 (command not found) return the error; on any other command
error swallow it and return no PIDs (`return nil, nil` in the source, the
masking the spec flags in its design notes). -/
def findPIDs (lookup : LookupResult) : List String × Option GoError :=
  match lookup with
  | .ok out => (goSplit ' ' (trimString out), none)
  | .exitErr code =>
    if code = 127 then ([], some (.exitError code)) else ([], none)

/-- Environment of one `Actions.jobKill` invocation: the `pidof` lookup result
and the outcomes of the kill and wait-for-death collaborator calls. -/
structure KillEnv where
  lookup : LookupResult
  killOk : Bool
  death1 : Bool
  kill9Ok : Bool
  death2 : Bool
deriving DecidableEq, Repr

/-- Embeds `Actions.jobKill` (actions.go lines 126-150): find PIDs (an error is
fatal); zero PIDs proceeds straight to `cp`; otherwise `kill -15`, wait 30s for
death, and on wait failure `kill -9` and wait 10s more, the second wait
exhausting being fatal. -/
def jobKill (k : KillEnv) : Option Stage × Option GoError :=
  match findPIDs k.lookup with
  | (_, some e) => (none, some (.wrap "problem finding existing PIDs" e))
  | (pids, none) =>
    if pids.length = 0 then (some .cp, none)
    else if k.killOk = false then
      (none, some (.wrap "failed to kill existing PIDs" .killErr))
    else if k.death1 then (some .cp, none)
    else if k.kill9Ok = false then
      (none, some (.wrap "failed to kill existing PIDs" .kill9Err))
    else if k.death2 then (some .cp, none)
    else (none, some (.wrap "failed to kill existing PIDs after -9" .deathTimeout))

/-- Environment of one `Actions.Run` invocation: outcomes of every collaborator
call the stages make (file open, SSH dial, load-balancer calls, the kill
sequence, the copy, the start, and whether the health endpoint reports `ok`
within the one-minute window). -/
structure Env where
  openOk : Bool
  dialOk : Bool
  rmOk : Bool
  kill : KillEnv
  cpOk : Bool
  startOk : Bool
  healthy : Bool
  addOk : Bool
deriving DecidableEq, Repr

/-- One stage handler call, embedded from the handlers of actions.go.  Returns
the next `StateFn` the handler returns (`none` models the `nil` function the
source returns both on error and on completion), the error, and the list of
stages whose handler body ran during the call (`jobStart` invokes `reachable`
directly via `return a.reachable(ctx)`, so a single loop iteration runs
both). -/
def stepStage (e : Env) : Stage → Option Stage × Option GoError × List Stage
  | .rmBackend =>
    if e.rmOk then (some .jobKill, none, [.rmBackend])
    else (none, some (.wrap "problem removing backend from pool" .rmErr), [.rmBackend])
  | .jobKill =>
    match jobKill e.kill with
    | (next, err) => (next, err, [.jobKill])
  | .cp =>
    if e.cpOk then (some .jobStart, none, [.cp])
    else (none, some (.wrap "failed to cp binary to remote end" .cpErr), [.cp])
  | .jobStart =>
    if e.startOk then
      if e.healthy then (some .addBackend, none, [.jobStart, .reachable])
      else (none, some .reachTimeout, [.jobStart, .reachable])
    else (none, some (.wrap "failed to start binary after copy" .startErr), [.jobStart])
  | .reachable =>
    if e.healthy then (some .addBackend, none, [.reachable])
    else (none, some .reachTimeout, [.reachable])
  | .addBackend =>
    if e.addOk then (none, none, [.addBackend])
    else (none, some .addErr, [.addBackend])

/-- The mutable fields of an `Actions` value that `Run` touches (the actions.go
struct fields `started`, `failedState` and `err`). -/
structure ActionState where
  started : Bool := false
  failedState : Option Stage := none
  err : Option GoError := none
deriving DecidableEq, Repr

/-- The `for` loop of `Actions.Run` (actions.go lines 100-114), with fuel for
termination (six iterations always suffice for the six-stage machine; the
`fuelOut` marker is unreachable from `run`).  The context is modelled as never
expired, as no claim settled here concerns cancellation.  On a handler error
the source executes `a.failedState = fn` where `fn` has just been reassigned to
the next state returned by the failing handler, and that assignment is embedded
verbatim as `failedState := r.1`. -/
def runLoop (e : Env) : Nat → Stage → ActionState →
    ActionState × Option GoError × List Stage
  | 0, _, st => (st, some .fuelOut, [])
  | Nat.succ n, fn, st =>
    let r := stepStage e fn
    match r.2.1 with
    | some er => ({ st with failedState := r.1, err := some er }, some er, r.2.2)
    | none =>
      match r.1 with
      | none => (st, none, r.2.2)
      | some fn2 =>
        let r2 := runLoop e n fn2 st
        (r2.1, r2.2.1, r.2.2 ++ r2.2.2)

/-- Embeds `Actions.Run` (actions.go lines 79-115): open the source binary and
dial SSH fresh on every invocation (either failing records `err` and returns),
then start the stage loop at `failedState` if one is recorded, otherwise at
`rmBackend`, setting `started`.  Returns the updated action state, the returned
error, and the list of stage handlers invoked. -/
def run (e : Env) (st : ActionState) : ActionState × Option GoError × List Stage :=
  if e.openOk = false then
    ({ st with err := some (.wrap "cannot open binary to copy" .openErr) },
     some (.wrap "cannot open binary to copy" .openErr), [])
  else if e.dialOk = false then
    ({ st with err := some (.wrap "problem dialing the endpoint" .dialErr) },
     some (.wrap "problem dialing the endpoint" .dialErr), [])
  else
    runLoop e 6 (st.failedState.getD .rmBackend) { st with started := true }

/-- An environment in which every collaborator call succeeds but the health
endpoint never reports `ok`: a `Run` under it fails at the `reachable`
(WaitHealthy) stage. -/
def envUnhealthy : Env :=
  { openOk := true, dialOk := true, rmOk := true
    kill := { lookup := .exitErr 1, killOk := true, death1 := true
              kill9Ok := true, death2 := true }
    cpOk := true, startOk := true, healthy := false, addOk := true }

/-- An environment in which every collaborator call succeeds. -/
def envAllOk : Env :=
  { envUnhealthy with healthy := true }

end actions

namespace config

/-- Models Go `net.SplitHostPort` for addresses without IPv6 brackets: exactly
one colon separates host from port; zero colons (missing port) or several
colons (too many colons) are errors.  Bracketed IPv6 literals are outside this
embedding; no claim settled here involves them. -/
def splitHostPort (s : String) : Option (String × String) :=
  match splitOnChar ':' s.data with
  | [h, p] => some (String.mk h, String.mk p)
  | _ => none

/-- True when the field is a valid dotted-quad component for Go `net.ParseIP`:
one to three decimal digits, value at most 255, no leading zero (Go 1.17 and
later reject leading zeros in IPv4 literals). -/
def validIPv4Field (l : List Char) : Bool :=
  decDigits l && decide (l.length ≤ 3) && decide (digitsVal l ≤ 255) &&
  (decide (l.length = 1) || decide (l.headD ' ' ≠ '0'))

/-- Models Go `net.ParseIP` restricted to IPv4 dotted-quad literals; a string
that is not an IPv4 literal (a host name, for instance) yields `none`, as
`ParseIP` yields nil.  IPv6 literals contain a colon and never reach `ParseIP`
through `CheckIPPort` in this embedding. -/
def parseIP (s : String) : Option (List Nat) :=
  match splitOnChar '.' s.data with
  | [a, b, c, d] =>
    if validIPv4Field a && validIPv4Field b && validIPv4Field c && validIPv4Field d then
      some [digitsVal a, digitsVal b, digitsVal c, digitsVal d]
    else none
  | _ => none

/-- Embeds `CheckIPPort` (orchestration/config/config.go lines 54-68),
including the slip under study: when `ParseIP` fails the source executes
`return nil, 0, err`, but `err` there is the nil error left over from the
successful `SplitHostPort` call, so the invalid host is reported without an
error; the port range is checked only after the IP parses. -/
def CheckIPPort (b : String) : Option (List Nat × Int) × Option GoError :=
  match splitHostPort b with
  | none => (none, some (.msg "address: bad host-port split"))
  | some (h, ps) =>
    let p := atoiOrZero ps
    match parseIP h with
    | none => (none, none)
    | some ip =>
      if p < 1 ∨ 65534 < p then (none, some (.msg "invalid port"))
      else (some (ip, p), none)

/-- Embeds the `Config` struct of orchestration/config/config.go. -/
structure Config where
  Concurrency : Int
  CanaryNum : Int
  MaxFailures : Int
  Src : String
  LB : String
  Pattern : String
  Backends : List String
deriving DecidableEq, Repr

/-- The backend loop of `Config.Validate`: the first backend failing
`CheckIPPort` aborts validation with its error. -/
def backendsCheck : List String → Option GoError
  | [] => none
  | b :: rest =>
    match (CheckIPPort b).2 with
    | some e => some (.wrap "Backend is not correct" e)
    | none => backendsCheck rest

/-- Embeds `Config.Validate` (config.go lines 31-51): LB must pass
`CheckIPPort`, Backends must be nonempty and each pass `CheckIPPort`, Pattern
must be nonempty after trimming, Concurrency must be at least 1. -/
def Validate (s : Config) : Option GoError :=
  match (CheckIPPort s.LB).2 with
  | some e => some (.wrap "LB is not correct" e)
  | none =>
    if s.Backends.length < 1 then some (.msg "must specify some Backends")
    else
      match backendsCheck s.Backends with
      | some e => some e
      | none =>
        if trimString s.Pattern = "" then some (.msg "Pattern is invalid")
        else if s.Concurrency < 1 then some (.msg "Concurrency is invalid")
        else none

end config

namespace workflow

open config

/-- The end states of a workflow run (workflow.go lines 24-37). -/
inductive EndState where
  | unknown
  | success
  | preconditionFailure
  | canaryFailure
  | maxFailures
deriving DecidableEq, Repr

/-- The pool statuses of the load-balancer `PoolHealth` reply that
`checkLBState` distinguishes: `PS_EMPTY`, `PS_FULL`, and anything else. -/
inductive PoolStatus where
  | empty
  | full
  | other
deriving DecidableEq, Repr

/-- An IP backend as reported by the load balancer (`client.IPBackend`). -/
structure IPBackend where
  ip : String
  port : Int
deriving DecidableEq, Repr

/-- One backend entry of a `PoolHealth` reply; `backend = none` models a
backend whose `GetIpBackend()` is nil (a non-IP backend type). -/
structure HealthBackend where
  backend : Option IPBackend
deriving DecidableEq, Repr

/-- A `PoolHealth` reply. -/
structure PoolHealth where
  status : PoolStatus
  backends : List HealthBackend
deriving DecidableEq, Repr

/-- The reported-backend loop of `checkLBState` (workflow.go lines 175-185):
every reported backend must be an IP backend whose IP string is a key of the
map built from the raw configured backend strings. -/
def checkBackendsLoop (cfg : List String) : List HealthBackend → Option GoError
  | [] => none
  | hb :: rest =>
    match hb.backend with
    | some b =>
      if b.ip ∈ cfg then checkBackendsLoop cfg rest
      else some (.msg "configured backend not in config file")
    | none => some (.msg "we only support IPBackend")

/-- Embeds `Workflow.checkLBState` (workflow.go lines 152-190).  The
`phResult` parameter is the outcome of the `PoolHealth` call (`none` models the
call itself returning an error).  An empty pool requires an empty configured
backend list; a full pool requires equal counts and every reported backend to
pass `checkBackendsLoop`; any other status is an error. -/
def checkLBState (cfgBackends : List String) (phResult : Option PoolHealth) :
    Option GoError :=
  match phResult with
  | none => some (.msg "PoolHealth error")
  | some ph =>
    match ph.status with
    | .empty =>
      if cfgBackends.length ≠ 0 then some (.msg "expected backends not equal found backends")
      else none
    | .full =>
      if cfgBackends.length ≠ ph.backends.length then
        some (.msg "expected backends not equal found backends")
      else checkBackendsLoop cfgBackends ph.backends
    | .other => some (.msg "pool was not at full health")

/-- Modelled from the spec: a reported backend is a member of the configured
Backends set by IP and port when some configured `host:port` entry parses to
exactly its IP string and port number.  This is the spec-side reading of the
phrase `by IP/port membership`; it is compared against the source-side
`checkBackendsLoop` above. -/
def specMemberIPPort (cfg : List String) (b : IPBackend) : Bool :=
  cfg.any fun e =>
    match splitHostPort e with
    | some (h, ps) => h = b.ip && atoiOrZero ps = b.port
    | none => false

/-- Modelled from the spec: the reported backend set exactly matches the
configured Backends set, read as the claim glosses it — equal count and every
reported backend a member of the configured set by IP and port. -/
def specExactMatch (cfg : List String) (bs : List HealthBackend) : Bool :=
  decide (cfg.length = bs.length) &&
  bs.all fun hb =>
    match hb.backend with
    | some b => specMemberIPPort cfg b
    | none => false

/-- The failure list of `Workflow.status` (workflow.go lines 212-220): every
action whose recorded error is non-nil. -/
def statusFailures (as : List actions.ActionState) : List actions.ActionState :=
  as.filter fun a => a.err.isSome

/-- The canary loop of `Workflow.Run` (workflow.go lines 76-87) over a list of
action indexes: run each in order, stopping at (and including) the first whose
`Run` returns an error.  `outcome i = true` means the `Run` of action `i`
returns an error.  Returns the indexes actually run and whether a canary
failed. -/
def runCanaries (outcome : Nat → Bool) : List Nat → List Nat × Bool
  | [] => ([], false)
  | i :: rest =>
    if outcome i then ([i], true)
    else
      let r := runCanaries outcome rest
      (i :: r.1, r.2)

/-- The admission decisions of the bulk loop of `Workflow.Run` (workflow.go
lines 93-113) under a given schedule: `obs k` is the value of the shared
`w.failures` counter that the k-th admission check observes (the check runs
after the `limit` channel send and before the goroutine launch); the loop
breaks at the first check that sees the counter above MaxFailures.  Returns
the indexes admitted. -/
def admitLoop (maxF : Int) (obs : Nat → Int) : Nat → List Nat → List Nat
  | _, [] => []
  | k, i :: rest =>
    if maxF < obs k then [] else i :: admitLoop maxF obs (k + 1) rest

/-- The observable result of one `Workflow.Run`: the end state, the indexes of
actions run in the canary phase, the indexes admitted in the bulk phase, the
final value of the shared failure counter, and whether `Run` returned an
error. -/
structure RunResult where
  endState : EndState
  canariesExecuted : List Nat
  bulkAdmitted : List Nat
  failures : Int
  runErr : Bool
deriving DecidableEq, Repr

/-- The canary index list of a run: the Go loop condition is
`i < len(w.actions) && int32(i) < w.config.CanaryNum`.  A negative CanaryNum
would make the bulk loop index the action slice negatively and crash Go, so
the model takes the nonnegative value. -/
def canaryIdx (cfg : Config) : List Nat :=
  (List.range cfg.Backends.length).take cfg.CanaryNum.toNat

/-- The bulk-phase candidate index list of a run: the Go loop runs
`i := w.config.CanaryNum; int(i) < len(w.actions)`. -/
def bulkIdx (cfg : Config) : List Nat :=
  (List.range cfg.Backends.length).drop cfg.CanaryNum.toNat

/-- Embeds `Workflow.Run` (workflow.go lines 65-122) under a schedule: the
precondition check (failure sets `ESPreconditionFailure` and returns before
any action runs), the sequential canary loop (any error sets `ESCanaryFailure`
and returns before the bulk loop), the bulk admission loop under `obs`, and
the final comparison of the counter against MaxFailures choosing
`ESMaxFailures` or `ESSuccess`.  The counter starts at zero (canary failures
never touch it) and, once every admitted action has finished, holds one
increment per admitted action whose `Run` errored. -/
def wfRun (cfg : Config) (phResult : Option PoolHealth)
    (outcome : Nat → Bool) (obs : Nat → Int) : RunResult :=
  if (checkLBState cfg.Backends phResult).isSome then
    { endState := .preconditionFailure, canariesExecuted := [], bulkAdmitted := [],
      failures := 0, runErr := true }
  else
    match runCanaries outcome (canaryIdx cfg) with
    | (ex, true) =>
      { endState := .canaryFailure, canariesExecuted := ex, bulkAdmitted := [],
        failures := 0, runErr := true }
    | (ex, false) =>
      let admitted := admitLoop cfg.MaxFailures obs 0 (bulkIdx cfg)
      let f : Int := (admitted.filter outcome).length
      if cfg.MaxFailures < f then
        { endState := .maxFailures, canariesExecuted := ex, bulkAdmitted := admitted,
          failures := f, runErr := true }
      else
        { endState := .success, canariesExecuted := ex, bulkAdmitted := admitted,
          failures := f, runErr := false }

/-- Outcome of one `retryFailed` call: the panic raised, or the multiset
(as a list) of failure-list indexes whose `Run` was invoked. -/
inductive RetryOutcome where
  | panicked (m : String)
  | completed (runs : List Nat)
deriving DecidableEq, Repr

/-- A possible assignment of reads of the shared loop variable `i` of
`Workflow.retryFailed` (workflow.go lines 134-146): the goroutine body reads
`i` without the loop having shadowed it with a per-iteration copy (unlike the
explicit `i := i` in the bulk loop of `Run`), so under the pre-1.22 Go
semantics this repository builds with, the goroutine launched at iteration `g`
observes some value `readAt g` with `g ≤ readAt g ≤ n`: the variable holds `g`
at launch, only grows, and ends at `n = len(ws.failures)`. -/
def validCaptureSched (n : Nat) (readAt : Nat → Nat) : Prop :=
  ∀ g, g < n → g ≤ readAt g ∧ readAt g ≤ n

/-- Embeds `Workflow.retryFailed` (workflow.go lines 125-148) under a read
schedule for the shared loop variable: a non-success end state panics (the
guard of the source, message preserved verbatim with its typo); a goroutine
that reads `n` indexes `ws.failures` out of range, a runtime panic; otherwise
the goroutines invoke `Run` on the failure-list entries at the read indexes. -/
def retryFailed (endState : EndState) (n : Nat) (readAt : Nat → Nat) : RetryOutcome :=
  if endState ≠ .success then
    .panicked "retrlyFailed cannot be called unless the workflow was a success"
  else if (List.range n).any (fun g => n ≤ readAt g) then
    .panicked "runtime error: index out of range"
  else .completed ((List.range n).map readAt)

/-- The fixed data of the bulk-phase concurrency structure of `Workflow.Run`
(workflow.go lines 89-114): the capacity of the `limit` channel (Concurrency),
the failure budget, and which action indexes fail. -/
structure BulkSys where
  conc : Nat
  maxF : Int
  fails : Nat → Bool

/-- The bulk system a config induces. -/
def bulkSysOf (cfg : Config) (fails : Nat → Bool) : BulkSys :=
  { conc := cfg.Concurrency.toNat, maxF := cfg.MaxFailures, fails := fails }

/-- An interleaving state of the bulk phase: the candidates the admitting loop
has not yet admitted, the occupancy of the `limit` channel, whether the
admitting loop holds a token it has not yet turned into a launch, the indexes
with a goroutine currently executing `Run`, the indexes whose goroutine has
finished, the shared failure counter, and whether the loop has broken. -/
structure BulkState where
  queue : List Nat
  tokens : Nat
  holding : Bool
  running : List Nat
  finished : List Nat
  failures : Int
  stopped : Bool
deriving DecidableEq, Repr

/-- The initial bulk state: no token held, nothing running, counter zero. -/
def bulkInit (queue : List Nat) : BulkState :=
  { queue := queue, tokens := 0, holding := false, running := [], finished := [],
    failures := 0, stopped := false }

/-- Small-step interleaving semantics of the bulk loop of `Workflow.Run`:
`acquire` is the blocking `limit <- struct{}{}` send at the top of a loop
iteration (enabled only below capacity); `launch` is the admission of the
goroutine for the head candidate after the admission check saw the counter
within budget; `halt` is the `break` when the check saw the counter above
budget (the held token is never released, as in the source); `finish` is the
completion of a running goroutine, releasing its token via the deferred
receive and incrementing the counter when its `Run` errored. -/
inductive BulkStep (sys : BulkSys) : BulkState → BulkState → Prop
  | acquire (s : BulkState) :
      s.queue ≠ [] → s.holding = false → s.stopped = false → s.tokens < sys.conc →
      BulkStep sys s { s with tokens := s.tokens + 1, holding := true }
  | launch (s : BulkState) (i : Nat) (rest : List Nat) :
      s.holding = true → s.queue = i :: rest → s.failures ≤ sys.maxF →
      BulkStep sys s { s with holding := false, queue := rest, running := i :: s.running }
  | halt (s : BulkState) :
      s.holding = true → sys.maxF < s.failures →
      BulkStep sys s { s with holding := false, stopped := true }
  | finish (s : BulkState) (i : Nat) :
      i ∈ s.running →
      BulkStep sys s { s with running := s.running.erase i,
                              finished := i :: s.finished,
                              tokens := s.tokens - 1,
                              failures := s.failures + (if sys.fails i then 1 else 0) }

/-- The token-counting invariant of the bulk phase: every running goroutine and
a token the admitting loop is holding each occupy one slot of the `limit`
channel, whose occupancy never exceeds its capacity. -/
def tokenInv (sys : BulkSys) (s : BulkState) : Prop :=
  s.running.length + (if s.holding then 1 else 0) ≤ s.tokens ∧ s.tokens ≤ sys.conc

/-- A concrete configuration realising the single-backend scenario of the spec:
no canaries, Concurrency 4, MaxFailures 0, one backend. -/
def cfgScenario : Config :=
  { Concurrency := 4, CanaryNum := 0, MaxFailures := 0, Src := "/tmp/web",
    LB := "1.2.3.4:80", Pattern := "/", Backends := ["10.0.0.1"] }

/-- A concrete full-pool reply matching `cfgScenario` by IP membership. -/
def phScenario : Option PoolHealth :=
  some { status := .full,
         backends := [{ backend := some { ip := "10.0.0.1", port := 9090 } }] }

/-- A concrete bulk state whose failure counter already exceeds a budget of
zero, used to instantiate the admission theorem. -/
def bulkStateExceeded : BulkState :=
  { queue := [3], tokens := 0, holding := false, running := [], finished := [],
    failures := 1, stopped := false }

/-- A concrete bulk system with capacity 2 and budget 0. -/
def bulkSysSmall : BulkSys :=
  { conc := 2, maxF := 0, fails := fun _ => false }

/-- A concrete four-backend configuration with one canary and Concurrency 2. -/
def cfgConc2 : Config :=
  { Concurrency := 2, CanaryNum := 1, MaxFailures := 1, Src := "/tmp/web",
    LB := "1.2.3.4:80", Pattern := "/",
    Backends := ["10.0.0.1", "10.0.0.2", "10.0.0.3", "10.0.0.4"] }

/-- A concrete full-pool reply matching `cfgConc2` by IP membership. -/
def phConc2 : Option PoolHealth :=
  some { status := .full,
         backends := [{ backend := some { ip := "10.0.0.1", port := 9090 } },
                      { backend := some { ip := "10.0.0.2", port := 9090 } },
                      { backend := some { ip := "10.0.0.3", port := 9090 } },
                      { backend := some { ip := "10.0.0.4", port := 9090 } }] }

end workflow

end GoModel

namespace GoModel

open actions config workflow

/-- Helper: the state a `runLoop` call returns is either the input state
unchanged or a state whose recorded error is non-nil; in particular the loop
never assigns nil to the `err` field. -/
theorem runLoop_err_cases (e : Env) :
    ∀ (n : Nat) (fn : Stage) (st : ActionState),
      (actions.runLoop e n fn st).1 = st ∨ ((actions.runLoop e n fn st).1.err).isSome = true := by
  intro n
  induction n with
  | zero => intro fn st; exact Or.inl rfl
  | succ n ih =>
    intro fn st
    simp only [actions.runLoop]
    split
    · right; rfl
    · split
      · left; rfl
      · exact ih _ st

/-- Helper: `Actions.Run` never clears a recorded error. -/
theorem run_err_persists (e : Env) (st : ActionState) (h : st.err.isSome = true) :
    (((actions.run e st).1).err).isSome = true := by
  unfold actions.run
  split
  · exact rfl
  · split
    · exact rfl
    · rcases runLoop_err_cases e 6 (st.failedState.getD .rmBackend) { st with started := true } with
        heq | hsome
      · rw [heq]; exact h
      · exact hsome

/-- C1: the Action state machine does not resume.  An Action whose first `Run`
fails at the `reachable` (WaitHealthy) stage records `failedState = none`
(the source stores the nil next state returned by the failing handler, not the
stage that failed), so the second `Run` restarts at `rmBackend` and the
RemoveFromPool, KillExisting, CopyBinary and StartBinary handlers are invoked
a second time: the claimed call counts of 1 across the retry are in fact 2. -/
theorem actions_run_restarts_after_failure :
    (actions.run envUnhealthy { }).1.failedState = none ∧
    (actions.run envUnhealthy { }).2.1 = some .reachTimeout ∧
    (actions.run envAllOk (actions.run envUnhealthy { }).1).2.1 = none ∧
    ((actions.run envUnhealthy { }).2.2 ++
        (actions.run envAllOk (actions.run envUnhealthy { }).1).2.2).count Stage.rmBackend = 2 ∧
    ((actions.run envUnhealthy { }).2.2 ++
        (actions.run envAllOk (actions.run envUnhealthy { }).1).2.2).count Stage.jobKill = 2 ∧
    ((actions.run envUnhealthy { }).2.2 ++
        (actions.run envAllOk (actions.run envUnhealthy { }).1).2.2).count Stage.cp = 2 ∧
    ((actions.run envUnhealthy { }).2.2 ++
        (actions.run envAllOk (actions.run envUnhealthy { }).1).2.2).count Stage.jobStart = 2 := by
  decide

/-- C8: a successful `Run` never clears a previously recorded Action error:
whatever the environment, an action state with a recorded error still has one
after `Run`, and such an action is always an element of the failure list the
workflow status derives. -/
theorem action_error_never_cleared (e : Env) (st : ActionState)
    (h : st.err.isSome = true) :
    (((actions.run e st).1).err).isSome = true ∧
    ∀ others : List ActionState,
      (actions.run e st).1 ∈ workflow.statusFailures ((actions.run e st).1 :: others) := by
  have hp := run_err_persists e st h
  refine ⟨hp, fun others => ?_⟩
  simp [workflow.statusFailures, List.filter_cons, hp]

/-- Witness for C8 at a concrete input: an action that failed at WaitHealthy
keeps its error over a later fully successful run. -/
theorem action_error_never_cleared_witness :
    (((actions.run envAllOk
        { started := true, failedState := none, err := some .reachTimeout }).1).err).isSome = true ∧
    (actions.run envAllOk
        { started := true, failedState := none, err := some .reachTimeout }).1 ∈
      workflow.statusFailures
        [(actions.run envAllOk
            { started := true, failedState := none, err := some .reachTimeout }).1] := by
  have h := action_error_never_cleared envAllOk
    { started := true, failedState := none, err := some .reachTimeout } (by decide)
  exact ⟨h.1, h.2 []⟩

/-- C9: in the KillExisting stage, a lookup failure with exit status 127
(command not found) is fatal for the stage, while any other lookup exit error
is treated as zero processes to kill and the stage proceeds to `cp`
(CopyBinary) without error. -/
theorem jobKill_lookup_error_handling (k : KillEnv) (c : Int)
    (h : k.lookup = .exitErr c) :
    actions.jobKill k =
      if c = 127 then
        (none, some (.wrap "problem finding existing PIDs" (.exitError c)))
      else (some .cp, none) := by
  unfold actions.jobKill actions.findPIDs
  rw [h]
  by_cases hc : c = 127
  · simp [hc]
  · simp [hc]

/-- Witness for C9 at concrete inputs: exit status 127 is fatal, exit status 1
proceeds to the copy stage. -/
theorem jobKill_lookup_error_handling_witness :
    actions.jobKill { lookup := .exitErr 127, killOk := true, death1 := true,
                      kill9Ok := true, death2 := true } =
      (none, some (.wrap "problem finding existing PIDs" (.exitError 127))) ∧
    actions.jobKill { lookup := .exitErr 1, killOk := true, death1 := true,
                      kill9Ok := true, death2 := true } = (some .cp, none) := by
  have h1 := jobKill_lookup_error_handling
    { lookup := .exitErr 127, killOk := true, death1 := true, kill9Ok := true, death2 := true }
    127 rfl
  have h2 := jobKill_lookup_error_handling
    { lookup := .exitErr 1, killOk := true, death1 := true, kill9Ok := true, death2 := true }
    1 rfl
  exact ⟨by simpa using h1, by simpa using h2⟩

/-- C3: `Config.Validate` accepts a configuration whose LB host is not a valid
IP literal: `SplitHostPort` succeeds on `localhost:8080`, `ParseIP` rejects
the host `localhost`, yet validation returns no error, because `CheckIPPort`
returns the nil error left from the split when the IP parse fails. -/
theorem validate_accepts_invalid_ip_host :
    config.splitHostPort "localhost:8080" = some ("localhost", "8080") ∧
    config.parseIP "localhost" = none ∧
    config.Validate
      { Concurrency := 1, CanaryNum := 0, MaxFailures := 0, Src := "/tmp/web",
        LB := "localhost:8080", Pattern := "/", Backends := ["127.0.0.1:8080"] } = none := by
  decide

/-- C7: the retry loop of `Workflow.retryFailed` reads the shared loop
variable from its goroutines without the per-iteration copy the bulk loop of
`Run` makes.  Both schedules below satisfy the read bounds of that shared
variable, yet under the first every goroutine reads the post-loop value 2 and
the call panics indexing the failure list out of range, and under the second
the failure at index 1 is retried twice while the failure at index 0 is never
retried; calling with a non-success end state panics with the guard message. -/
theorem retryFailed_loop_capture_bug :
    workflow.validCaptureSched 2 (fun _ => 2) ∧
    workflow.retryFailed .success 2 (fun _ => 2) =
      .panicked "runtime error: index out of range" ∧
    workflow.validCaptureSched 2 (fun _ => 1) ∧
    workflow.retryFailed .success 2 (fun _ => 1) = .completed [1, 1] ∧
    workflow.retryFailed .canaryFailure 2 (fun g => g) =
      .panicked "retrlyFailed cannot be called unless the workflow was a success" := by
  refine ⟨fun g hg => by show g ≤ 2 ∧ 2 ≤ 2; omega, by decide,
          fun g hg => by show g ≤ 1 ∧ 1 ≤ 2; omega, by decide, by decide⟩


/-- Helper: the reported-backend loop of `checkLBState` succeeds exactly when
every reported backend is an IP backend whose IP string is configured. -/
theorem checkBackendsLoop_eq_none (cfg : List String) :
    ∀ bs : List HealthBackend,
      workflow.checkBackendsLoop cfg bs = none ↔
        ∀ hb ∈ bs, ∃ b, hb.backend = some b ∧ b.ip ∈ cfg := by
  intro bs
  induction bs with
  | nil => simp [workflow.checkBackendsLoop]
  | cons hb rest ih =>
    cases hhb : hb.backend with
    | none => simp [workflow.checkBackendsLoop, hhb]
    | some b =>
      by_cases hmem : b.ip ∈ cfg
      · simp [workflow.checkBackendsLoop, hhb, hmem, ih]
      · simp [workflow.checkBackendsLoop, hhb, hmem]

/-- C2 counterexample: at a configured backend list `["1.2.3.4:80"]` and a
full pool reporting the single IP backend `1.2.3.4` port `80`, the reported
set exactly matches the configured set by IP and port, yet the precondition
check fails: the source compares the bare reported IP string against the raw
configured `host:port` strings, so the claimed equivalence is false here. -/
theorem checkLBState_ipport_match_counterexample :
    ¬ ((workflow.checkLBState ["1.2.3.4:80"]
          (some { status := .full,
                  backends := [{ backend := some { ip := "1.2.3.4", port := 80 } }] }) = none) ↔
        workflow.specExactMatch ["1.2.3.4:80"]
          [{ backend := some { ip := "1.2.3.4", port := 80 } }] = true) := by
  decide

/-- C2 amended: a full pool passes the precondition check exactly when the
configured and reported backend counts are equal and every reported backend is
an IP backend whose IP string equals one of the raw configured Backends
entries (the reported port is ignored); and whenever the check fails, the
workflow run ends in PreconditionFailure with no canary run and no bulk
admission. -/
theorem checkLBState_full_iff_ip_membership :
    (∀ (cfg : List String) (bs : List HealthBackend),
        workflow.checkLBState cfg (some { status := .full, backends := bs }) = none ↔
          (cfg.length = bs.length ∧ ∀ hb ∈ bs, ∃ b, hb.backend = some b ∧ b.ip ∈ cfg)) ∧
    (∀ (cfg : Config) (phR : Option PoolHealth) (outcome : Nat → Bool) (obs : Nat → Int),
        (workflow.checkLBState cfg.Backends phR).isSome = true →
          (workflow.wfRun cfg phR outcome obs).endState = .preconditionFailure ∧
          (workflow.wfRun cfg phR outcome obs).canariesExecuted = [] ∧
          (workflow.wfRun cfg phR outcome obs).bulkAdmitted = []) := by
  constructor
  · intro cfg bs
    by_cases hlen : cfg.length = bs.length
    · simp [workflow.checkLBState, hlen, checkBackendsLoop_eq_none]
    · simp [workflow.checkLBState, hlen]
  · intro cfg phR outcome obs h
    simp [workflow.wfRun, h]

/-- Witness for C2 amended at concrete inputs: a matching one-element pool
passes, and a failing `PoolHealth` call ends the run in PreconditionFailure
with nothing executed. -/
theorem checkLBState_full_iff_ip_membership_witness :
    workflow.checkLBState ["10.0.0.1"]
      (some { status := .full,
              backends := [{ backend := some { ip := "10.0.0.1", port := 9090 } }] }) = none ∧
    (workflow.wfRun cfgScenario none (fun _ => false) (fun _ => 0)).endState =
      .preconditionFailure := by
  constructor
  · refine (checkLBState_full_iff_ip_membership.1 _ _).mpr ⟨rfl, ?_⟩
    intro hb hmem
    rcases List.mem_singleton.mp hmem with rfl
    exact ⟨_, rfl, by decide⟩
  · exact (checkLBState_full_iff_ip_membership.2 cfgScenario none
      (fun _ => false) (fun _ => 0) (by decide)).1

/-- Helper: the canary loop runs the canaries that succeed, in order, then the
first failing one, and nothing after it; the flag says whether any failed. -/
theorem runCanaries_eq (outcome : Nat → Bool) :
    ∀ l : List Nat,
      workflow.runCanaries outcome l =
        (l.takeWhile (fun i => !outcome i) ++ (l.dropWhile (fun i => !outcome i)).take 1,
         !(l.dropWhile (fun i => !outcome i)).isEmpty) := by
  intro l
  induction l with
  | nil => simp [workflow.runCanaries]
  | cons i rest ih =>
    by_cases hi : outcome i
    · simp [workflow.runCanaries, hi]
    · simp [workflow.runCanaries, hi, ih]

/-- C5: if the precondition passes and some canary fails, the workflow run
ends in CanaryFailure with an error, admits no bulk-phase action, and the
actions executed are exactly the leading succeeding canaries followed by the
first failing one — no remaining canary and nothing else runs (endpoints that
already succeeded are left as-is). -/
theorem canary_failure_aborts_workflow (cfg : Config)
    (phR : Option PoolHealth) (outcome : Nat → Bool) (obs : Nat → Int)
    (hpre : workflow.checkLBState cfg.Backends phR = none)
    (hfail : (workflow.runCanaries outcome (workflow.canaryIdx cfg)).2 = true) :
    (workflow.wfRun cfg phR outcome obs).endState = .canaryFailure ∧
    (workflow.wfRun cfg phR outcome obs).bulkAdmitted = [] ∧
    (workflow.wfRun cfg phR outcome obs).runErr = true ∧
    (workflow.wfRun cfg phR outcome obs).canariesExecuted =
      (workflow.canaryIdx cfg).takeWhile (fun i => !outcome i) ++
        ((workflow.canaryIdx cfg).dropWhile (fun i => !outcome i)).take 1 := by
  have hrc := runCanaries_eq outcome (workflow.canaryIdx cfg)
  have hflag : (!((workflow.canaryIdx cfg).dropWhile (fun i => !outcome i)).isEmpty) = true := by
    rw [hrc] at hfail
    exact hfail
  have hex : workflow.runCanaries outcome (workflow.canaryIdx cfg) =
      ((workflow.canaryIdx cfg).takeWhile (fun i => !outcome i) ++
        ((workflow.canaryIdx cfg).dropWhile (fun i => !outcome i)).take 1, true) := by
    rw [hrc, hflag]
  refine ⟨?_, ?_, ?_, ?_⟩ <;> simp [workflow.wfRun, hpre, hex]

/-- Witness for C5 at a concrete input: with one canary over four backends and
the canary failing, the run ends in CanaryFailure having executed only the
canary. -/
theorem canary_failure_aborts_workflow_witness :
    (workflow.wfRun cfgConc2 phConc2 (fun _ => true) (fun _ => 0)).endState =
      .canaryFailure ∧
    (workflow.wfRun cfgConc2 phConc2 (fun _ => true) (fun _ => 0)).bulkAdmitted = [] ∧
    (workflow.wfRun cfgConc2 phConc2 (fun _ => true) (fun _ => 0)).canariesExecuted = [0] := by
  have h := canary_failure_aborts_workflow cfgConc2 phConc2
    (fun _ => true) (fun _ => 0) (by decide) (by decide)
  exact ⟨h.1, h.2.1, h.2.2.2.trans (by decide)⟩

/-- C6: if the precondition passes and every canary succeeds, the end state of
the run is MaxFailuresExceeded exactly when the final failure counter exceeds
MaxFailures and Success otherwise (Success even with individual failures, as
long as the count stays within budget), and the final counter is one increment
per admitted bulk action whose `Run` errored. -/
theorem bulk_endstate_matches_budget (cfg : Config)
    (phR : Option PoolHealth) (outcome : Nat → Bool) (obs : Nat → Int)
    (hpre : workflow.checkLBState cfg.Backends phR = none)
    (hok : (workflow.runCanaries outcome (workflow.canaryIdx cfg)).2 = false) :
    (workflow.wfRun cfg phR outcome obs).endState =
      (if cfg.MaxFailures < (workflow.wfRun cfg phR outcome obs).failures
       then .maxFailures else .success) ∧
    (workflow.wfRun cfg phR outcome obs).failures =
      (((workflow.admitLoop cfg.MaxFailures obs 0 (workflow.bulkIdx cfg)).filter
          outcome).length : Int) := by
  obtain ⟨ex, hex⟩ : ∃ ex, workflow.runCanaries outcome (workflow.canaryIdx cfg) =
      (ex, false) :=
    ⟨(workflow.runCanaries outcome (workflow.canaryIdx cfg)).1, by rw [← hok]⟩
  by_cases hf : cfg.MaxFailures <
      (((workflow.admitLoop cfg.MaxFailures obs 0 (workflow.bulkIdx cfg)).filter
          outcome).length : Int) <;>
    constructor <;>
    simp [workflow.wfRun, hpre, hex, hf]

/-- Witness for C6: the single-backend scenario — no canaries, MaxFailures 0,
the one backend failing — ends in MaxFailuresExceeded. -/
theorem bulk_endstate_matches_budget_witness :
    (workflow.wfRun cfgScenario phScenario (fun _ => true) (fun _ => 0)).endState =
      .maxFailures := by
  have h := bulk_endstate_matches_budget cfgScenario phScenario
    (fun _ => true) (fun _ => 0) (by decide) (by decide)
  exact h.1.trans (by rw [h.2]; decide)


/-- Helper: the shared failure counter never decreases along a bulk step. -/
theorem bulkStep_failures_mono {sys : BulkSys} {s t : BulkState}
    (h : workflow.BulkStep sys s t) : s.failures ≤ t.failures := by
  cases h with
  | acquire hq hh hst hc => exact le_refl _
  | launch i rest hh hq hf => exact le_refl _
  | halt hh hf => exact le_refl _
  | finish i hi =>
    show s.failures ≤ s.failures + (if sys.fails i then 1 else 0)
    split <;> omega

/-- C4: the bulk loop checks the shared failure counter against MaxFailures
before each admission (the guard of the `launch` step), so from any bulk state
whose counter already exceeds the budget, no reachable state has admitted
anything further — the candidate queue never changes — and in any state where
no step remains possible every admitted action has finished (`running` is
empty; admitted actions are never aborted, their `finish` step stays
enabled). -/
theorem bulk_no_admission_after_budget_exceeded (sys : BulkSys)
    (s s2 : BulkState)
    (h : Relation.ReflTransGen (workflow.BulkStep sys) s s2)
    (hex : sys.maxF < s.failures) :
    s2.queue = s.queue ∧ ((∀ t, ¬ workflow.BulkStep sys s2 t) → s2.running = []) := by
  constructor
  · have key : s2.queue = s.queue ∧ sys.maxF < s2.failures := by
      induction h with
      | refl => exact ⟨rfl, hex⟩
      | tail hst hstep ih =>
        rcases ih with ⟨hq, hf⟩
        cases hstep with
        | acquire hq3 hh3 hst3 hc3 => exact ⟨hq, hf⟩
        | launch i rest hh3 hq3 hf3 => exact absurd hf3 (not_le.mpr hf)
        | halt hh3 hf3 => exact ⟨hq, hf⟩
        | finish i hi =>
          refine ⟨hq, ?_⟩
          have h0 : (0 : Int) ≤ if sys.fails i then 1 else 0 := by split <;> omega
          show sys.maxF < _ + (if sys.fails i then 1 else 0)
          omega
    exact key.1
  · intro hfin
    cases hr : s2.running with
    | nil => rfl
    | cons i rest =>
      exact absurd
        (workflow.BulkStep.finish s2 i (by rw [hr]; exact List.mem_cons_self i rest))
        (hfin _)

/-- Witness for C4 at a concrete input: from a state whose counter 1 exceeds
budget 0, the queue is unchanged over the empty step sequence. -/
theorem bulk_no_admission_after_budget_exceeded_witness :
    bulkStateExceeded.queue = bulkStateExceeded.queue ∧
    ((∀ t, ¬ workflow.BulkStep bulkSysSmall bulkStateExceeded t) →
      bulkStateExceeded.running = []) :=
  bulk_no_admission_after_budget_exceeded bulkSysSmall bulkStateExceeded bulkStateExceeded
    Relation.ReflTransGen.refl (by decide)

/-- Helper: every bulk step preserves the token-counting invariant. -/
theorem tokenInv_step {sys : BulkSys} {s t : BulkState}
    (h : workflow.BulkStep sys s t) (hs : workflow.tokenInv sys s) :
    workflow.tokenInv sys t := by
  rcases hs with ⟨h1, h2⟩
  cases h with
  | acquire hq hh hst hc =>
    rw [hh] at h1
    have h1a : s.running.length + 0 ≤ s.tokens := h1
    exact ⟨by show s.running.length + 1 ≤ s.tokens + 1; omega,
           by show s.tokens + 1 ≤ sys.conc; omega⟩
  | launch i rest hh hq hf =>
    rw [hh] at h1
    have h1a : s.running.length + 1 ≤ s.tokens := h1
    exact ⟨by show s.running.length + 1 + 0 ≤ s.tokens; omega, h2⟩
  | halt hh hf =>
    rw [hh] at h1
    have h1a : s.running.length + 1 ≤ s.tokens := h1
    exact ⟨by show s.running.length + 0 ≤ s.tokens; omega, h2⟩
  | finish i hi =>
    have hlen : (s.running.erase i).length = s.running.length - 1 :=
      List.length_erase_of_mem hi
    have hpos : 1 ≤ s.running.length := List.length_pos.mpr (List.ne_nil_of_mem hi)
    constructor
    · show (s.running.erase i).length + (if s.holding = true then 1 else 0) ≤ s.tokens - 1
      rw [hlen]
      omega
    · show s.tokens - 1 ≤ sys.conc
      omega

/-- Helper: the token-counting invariant holds in every reachable state. -/
theorem tokenInv_reaches {sys : BulkSys} {s t : BulkState}
    (h : Relation.ReflTransGen (workflow.BulkStep sys) s t)
    (hs : workflow.tokenInv sys s) : workflow.tokenInv sys t := by
  induction h with
  | refl => exact hs
  | tail hst hstep ih => exact tokenInv_step hstep ih

/-- C10: with the bulk system a configuration induces, every state reachable
from the initial bulk state has at most Concurrency actions executing
simultaneously: each running goroutine holds one slot of the `limit` channel,
whose capacity is Concurrency. -/
theorem bulk_concurrency_bound (cfg : Config) (fails : Nat → Bool)
    (q : List Nat) (s : BulkState)
    (h : Relation.ReflTransGen (workflow.BulkStep (workflow.bulkSysOf cfg fails))
          (workflow.bulkInit q) s) :
    s.running.length ≤ cfg.Concurrency.toNat := by
  have hinv := tokenInv_reaches h
    ⟨by simp [workflow.bulkInit], by simp [workflow.bulkInit]⟩
  rcases hinv with ⟨h1, h2⟩
  have hconc : (workflow.bulkSysOf cfg fails).conc = cfg.Concurrency.toNat := rfl
  rw [hconc] at h2
  omega

/-- The bulk-phase semantics is inhabited: over a single candidate the loop
acquires a token, admits the action, and the action finishes, leaving an empty
running set and the action recorded as finished. -/
theorem bulkStep_execution_demo :
    Relation.ReflTransGen (workflow.BulkStep bulkSysSmall) (workflow.bulkInit [5])
      { queue := [], tokens := 0, holding := false, running := [],
        finished := [5], failures := 0, stopped := false } := by
  refine Relation.ReflTransGen.head
    (workflow.BulkStep.acquire _ (by decide) rfl rfl (by decide)) ?_
  refine Relation.ReflTransGen.head
    (workflow.BulkStep.launch _ 5 [] rfl rfl (by decide)) ?_
  refine Relation.ReflTransGen.single ?_
  exact workflow.BulkStep.finish
    { queue := [], tokens := 1, holding := false, running := [5], finished := [],
      failures := 0, stopped := false } 5 (by decide)

/-- Witness for C10 at a concrete input: the initial state over two candidates
is within the bound of `cfgConc2`. -/
theorem bulk_concurrency_bound_witness :
    (workflow.bulkInit [1, 2]).running.length ≤ cfgConc2.Concurrency.toNat :=
  bulk_concurrency_bound cfgConc2 (fun _ => false) [1, 2] (workflow.bulkInit [1, 2])
    Relation.ReflTransGen.refl

end GoModel
